import Mathlib

/-!
# SpeedyPaws — shallow embedding of the speed-memory and settings core

This file embeds, in Lean, the reconciliation core of the SpeedyPaws browser
extension: the `SpeedController` playback driver, the content-script
coordinator (`SpeedyPawsContent` in `src/content/content.ts`), the background
coordinator (`src/background/background.ts`) and the popup's speed path
(`src/popup/popup.ts`).  Playback rates are modelled as rationals; the
`videoSpeeds` / `channelSpeeds` records are modelled as association lists.
JavaScript `Math.round(x * 10) / 10` is round-half-up on tenths, and the
truthiness test `if (map[key])` treats a present entry with value `0` as
absent; both are modelled explicitly.
-/

set_option allowUnsafeReducibility true in
attribute [semireducible] Rat.add Rat.sub Rat.mul Rat.inv

namespace SpeedyPaws

/-- Speed bounds from `src/types.ts` / `speedController.ts`: `MIN_SPEED = 0.1`. -/
def MIN_SPEED : Rat := 1 / 10

/-- Speed bounds from `src/types.ts` / `speedController.ts`: `MAX_SPEED = 5.0`. -/
def MAX_SPEED : Rat := 5

/-- Step used by increase/decrease: `SPEED_STEP = 0.1`. -/
def SPEED_STEP : Rat := 1 / 10

/-- JavaScript `Math.round`: round half towards positive infinity. -/
def jsRound (q : Rat) : Int := Rat.floor (q + 1 / 2)

/-- The clamping in `SpeedController.setSpeed`:
`Math.max(MIN_SPEED, Math.min(MAX_SPEED, speed))`. -/
def clampSpeed (s : Rat) : Rat := max MIN_SPEED (min MAX_SPEED s)

/-- The full normalisation in `SpeedController.setSpeed`: clamp to the valid
range, then `Math.round(speed * 10) / 10` (one decimal place). -/
def normalizeSpeed (s : Rat) : Rat := (jsRound (clampSpeed s * 10) : Rat) / 10

/-- Lookup in a JS object used as a string-keyed record (`Record<string, number>`). -/
def recLookup (m : List (String × Rat)) (k : String) : Option Rat :=
  match m with
  | [] => none
  | (k', v) :: rest => if k' = k then some v else recLookup rest k

/-- Property assignment `m[k] = v` on a JS record: overwrite the existing
entry for `k`, or add one. -/
def recInsert (m : List (String × Rat)) (k : String) (v : Rat) : List (String × Rat) :=
  match m with
  | [] => [(k, v)]
  | (k', v') :: rest =>
    if k' = k then (k', v) :: rest else (k', v') :: recInsert rest k v

/-- JS truthiness of a record lookup `map[key]`: `undefined` (absent) and `0`
are falsy, every other number is truthy. -/
def jsTruthy : Option Rat → Bool
  | none => false
  | some v => if v = 0 then false else true

/-- `SpeedProfile` from `src/types.ts`. -/
inductive SpeedProfile where
  | study
  | chill
  | review
  | custom
deriving DecidableEq

/-- `ProfileConfig` from `src/types.ts`: named preset rates. -/
structure ProfileConfig where
  study : Rat
  chill : Rat
  review : Rat
deriving DecidableEq

/-- The `overlayPosition` field of the settings record. -/
structure OverlayPosition where
  x : Rat
  y : Rat
deriving DecidableEq

/-- `SpeedyPawsSettings` from `src/types.ts`: the persisted settings record. -/
structure SpeedyPawsSettings where
  smartSpeedEnabled : Bool
  rememberChannel : Bool
  rememberVideo : Bool
  showOverlay : Bool
  currentProfile : SpeedProfile
  defaultSpeed : Rat
  profiles : ProfileConfig
  channelSpeeds : List (String × Rat)
  videoSpeeds : List (String × Rat)
  overlayPosition : OverlayPosition
deriving DecidableEq

/-- `DEFAULT_SETTINGS` from `src/types.ts` (duplicated in `content.ts`). -/
def DEFAULT_SETTINGS : SpeedyPawsSettings where
  smartSpeedEnabled := false
  rememberChannel := true
  rememberVideo := true
  showOverlay := true
  currentProfile := .custom
  defaultSpeed := 1
  profiles := { study := 3 / 4, chill := 1, review := 7 / 4 }
  channelSpeeds := []
  videoSpeeds := []
  overlayPosition := { x := 20, y := 80 }

/-- `VideoInfo` from `src/types.ts`: the content identity scraped from the page. -/
structure VideoInfo where
  videoId : String
  channelId : String
  channelName : String
  title : String
deriving DecidableEq

/-- `SpeedChangePayload` from `src/types.ts`; the handler only reads `speed`. -/
structure SpeedChangePayload where
  speed : Rat
  videoId : Option String := none
  channelId : Option String := none
deriving DecidableEq

/-- A `Partial of SpeedyPawsSettings` payload for `UPDATE_SETTINGS`: each field
is present (`some`) or absent (`none`). -/
structure SettingsPatch where
  smartSpeedEnabled : Option Bool := none
  rememberChannel : Option Bool := none
  rememberVideo : Option Bool := none
  showOverlay : Option Bool := none
  currentProfile : Option SpeedProfile := none
  defaultSpeed : Option Rat := none
  profiles : Option ProfileConfig := none
  channelSpeeds : Option (List (String × Rat)) := none
  videoSpeeds : Option (List (String × Rat)) := none
  overlayPosition : Option OverlayPosition := none
deriving DecidableEq

/-- The spread merge `bla = ... current, ...updates` used by both
`SpeedyPawsContent.updateSettings` and the background `updateSettings`: a
shallow, top-level field override. -/
def mergeSettings (s : SpeedyPawsSettings) (u : SettingsPatch) : SpeedyPawsSettings where
  smartSpeedEnabled := u.smartSpeedEnabled.getD s.smartSpeedEnabled
  rememberChannel := u.rememberChannel.getD s.rememberChannel
  rememberVideo := u.rememberVideo.getD s.rememberVideo
  showOverlay := u.showOverlay.getD s.showOverlay
  currentProfile := u.currentProfile.getD s.currentProfile
  defaultSpeed := u.defaultSpeed.getD s.defaultSpeed
  profiles := u.profiles.getD s.profiles
  channelSpeeds := u.channelSpeeds.getD s.channelSpeeds
  videoSpeeds := u.videoSpeeds.getD s.videoSpeeds
  overlayPosition := u.overlayPosition.getD s.overlayPosition

/-- State of the `SpeedController` playback driver
(`src/content/speedController.ts`).  The `video` field models the `this.video`
handle together with the playback rate of the media element it points to;
`none` models both "handle is null" and "no media element is locatable in the
document" — the mutation observer of `setupVideoObserver` keeps the handle in
sync with the document, so at the granularity of the modelled operations a
re-query (`findVideo`) cannot discover an element the field does not already
reflect. -/
structure ControllerState where
  video : Option Rat
  currentSpeed : Rat
  smartSpeedEnabled : Bool
  smartSpeedRunning : Bool
deriving DecidableEq

namespace SpeedController

/-- `findVideo`: re-query the document for the media element.  On this state
abstraction the query returns what `video` already holds; when an element is
found the controller syncs its cache from the element's rate. -/
def findVideo (c : ControllerState) : ControllerState :=
  match c.video with
  | some r => { c with currentSpeed := r }
  | none => c

/-- `SpeedController.setSpeed`: clamp and round, re-locate the element if the
handle is null, and only if an element is held apply the rate, update the
cache and notify observers (the registered observers are display-only). -/
def setSpeed (c : ControllerState) (speed : Rat) : ControllerState :=
  let sp := normalizeSpeed speed
  let c1 := if c.video.isNone then findVideo c else c
  match c1.video with
  | some _ => { c1 with video := some sp, currentSpeed := sp }
  | none => c1

/-- `SpeedController.getSpeed`: when an element is held, sync the cache from
its live rate and return it; otherwise return the cached value. -/
def getSpeed (c : ControllerState) : ControllerState × Rat :=
  match c.video with
  | some r => ({ c with currentSpeed := r }, r)
  | none => (c, c.currentSpeed)

/-- `SpeedController.increaseSpeed`. -/
def increaseSpeed (c : ControllerState) : ControllerState :=
  setSpeed c (c.currentSpeed + SPEED_STEP)

/-- `SpeedController.decreaseSpeed`. -/
def decreaseSpeed (c : ControllerState) : ControllerState :=
  setSpeed c (c.currentSpeed - SPEED_STEP)

/-- `SpeedController.setSmartSpeedEnabled`: set the flag and start or fully
stop the interval timer of the stub smart-speed loop. -/
def setSmartSpeedEnabled (c : ControllerState) (enabled : Bool) : ControllerState :=
  if enabled then
    { c with smartSpeedEnabled := enabled, smartSpeedRunning := true }
  else
    { c with smartSpeedEnabled := enabled, smartSpeedRunning := false }

end SpeedController

/-- The modelled slice of `OverlayUI` state: visibility and the profile badge. -/
structure OverlayState where
  isVisible : Bool
  currentProfile : SpeedProfile
deriving DecidableEq

/-- A freshly constructed `OverlayUI`. -/
def newOverlay : OverlayState where
  isVisible := true
  currentProfile := .custom

/-- State of one `SpeedyPawsContent` page instance, together with the shared
persisted store (`chrome.storage.local`, key `speedyPawsSettings`) and the
content identity `getVideoInfo()` currently reads off the page. -/
structure ContentState where
  settings : SpeedyPawsSettings
  store : Option SpeedyPawsSettings
  controller : ControllerState
  videoInfo : Option VideoInfo
  overlay : Option OverlayState
deriving DecidableEq

/-- The request kinds of `SpeedyPawsContent.handleMessage`. -/
inductive Message where
  | GET_SPEED
  | SET_SPEED (payload : SpeedChangePayload)
  | INCREASE_SPEED
  | DECREASE_SPEED
  | GET_SETTINGS
  | UPDATE_SETTINGS (payload : SettingsPatch)
  | SET_PROFILE (payload : SpeedProfile)
  | TOGGLE_OVERLAY
deriving DecidableEq

/-- The responses sent through `sendResponse`. -/
inductive Response where
  | speed (value : Rat)
  | success
  | settings (value : SpeedyPawsSettings)
  | visible (value : Bool)
deriving DecidableEq

/-- `SpeedyPawsContent.saveSettings`: write the working copy to the store. -/
def saveSettings (st : ContentState) : ContentState :=
  { st with store := some st.settings }

/-- The `speedToApply` computation of
`SpeedyPawsContent.applyRememberedSpeed` (content.ts lines 290 to 306): the
video entry when `rememberVideo` is on and `videoSpeeds[videoId]` is truthy,
else the channel entry when `rememberChannel` is on and the lookup is truthy,
else the active profile's rate when `currentProfile` is not `custom`, else
`defaultSpeed`. -/
def resolveSpeed (s : SpeedyPawsSettings) (vi : VideoInfo) : Rat :=
  if s.rememberVideo && jsTruthy (recLookup s.videoSpeeds vi.videoId) then
    (recLookup s.videoSpeeds vi.videoId).getD 0
  else if s.rememberChannel && jsTruthy (recLookup s.channelSpeeds vi.channelId) then
    (recLookup s.channelSpeeds vi.channelId).getD 0
  else
    match s.currentProfile with
    | .study => s.profiles.study
    | .chill => s.profiles.chill
    | .review => s.profiles.review
    | .custom => s.defaultSpeed

/-- `SpeedyPawsContent.applyRememberedSpeed`: resolve the speed for the
current content identity and hand it to the playback driver; no identity
means no action. -/
def applyRememberedSpeed (st : ContentState) : ContentState :=
  match st.videoInfo with
  | none => st
  | some vi =>
    { st with controller := SpeedController.setSpeed st.controller (resolveSpeed st.settings vi) }

/-- `SpeedyPawsContent.rememberSpeed`: write `speed` into the per-video and
per-channel memory tables according to the remember flags, update
`defaultSpeed` when no named profile is active, and persist the snapshot. -/
def rememberSpeed (st : ContentState) (speed : Rat) : ContentState :=
  match st.videoInfo with
  | none => st
  | some vi =>
    let s0 := st.settings
    let s1 :=
      if s0.rememberVideo then
        { s0 with videoSpeeds := recInsert s0.videoSpeeds vi.videoId speed }
      else s0
    let s2 :=
      if s1.rememberChannel then
        { s1 with channelSpeeds := recInsert s1.channelSpeeds vi.channelId speed }
      else s1
    let s3 :=
      if s2.currentProfile = .custom then { s2 with defaultSpeed := speed } else s2
    { st with settings := s3, store := some s3 }

/-- `SpeedyPawsContent.updateSettings`: spread-merge the partial record into
the snapshot, persist, then toggle the overlay when `showOverlay` was in the
payload and re-arm or stop the smart-speed loop when `smartSpeedEnabled`
was. -/
def contentUpdateSettings (st : ContentState) (u : SettingsPatch) : ContentState :=
  let s := mergeSettings st.settings u
  let st1 : ContentState := { st with settings := s, store := some s }
  let st2 :=
    match u.showOverlay with
    | none => st1
    | some b =>
      if b then
        if st1.overlay.isNone then { st1 with overlay := some newOverlay } else st1
      else
        match st1.overlay with
        | some o => { st1 with overlay := some { o with isVisible := false } }
        | none => st1
  match u.smartSpeedEnabled with
  | none => st2
  | some b => { st2 with controller := SpeedController.setSmartSpeedEnabled st2.controller b }

/-- `SpeedyPawsContent.setProfile`: record the profile, apply its configured
rate when it is not `custom`, update the overlay badge, and persist. -/
def contentSetProfile (st : ContentState) (p : SpeedProfile) : ContentState :=
  let s := { st.settings with currentProfile := p }
  let ctrl :=
    match p with
    | .custom => st.controller
    | .study => SpeedController.setSpeed st.controller s.profiles.study
    | .chill => SpeedController.setSpeed st.controller s.profiles.chill
    | .review => SpeedController.setSpeed st.controller s.profiles.review
  let ov := st.overlay.map fun o => { o with currentProfile := p }
  { st with settings := s, controller := ctrl, overlay := ov, store := some s }

/-- `SpeedyPawsContent.toggleOverlay`. -/
def contentToggleOverlay (st : ContentState) : ContentState :=
  match st.overlay with
  | some o => { st with overlay := some { o with isVisible := !o.isVisible } }
  | none =>
    if st.settings.showOverlay then { st with overlay := some newOverlay } else st

/-- `SpeedyPawsContent.handleMessage`: the synchronous dispatch table of the
content coordinator. -/
def contentHandleMessage (st : ContentState) (msg : Message) : ContentState × Response :=
  match msg with
  | .GET_SPEED =>
    let g := SpeedController.getSpeed st.controller
    ({ st with controller := g.1 }, .speed g.2)
  | .SET_SPEED payload =>
    let st1 := { st with controller := SpeedController.setSpeed st.controller payload.speed }
    (rememberSpeed st1 payload.speed, .success)
  | .INCREASE_SPEED =>
    let c1 := SpeedController.increaseSpeed st.controller
    let g1 := SpeedController.getSpeed c1
    let st1 := rememberSpeed { st with controller := g1.1 } g1.2
    let g2 := SpeedController.getSpeed st1.controller
    ({ st1 with controller := g2.1 }, .speed g2.2)
  | .DECREASE_SPEED =>
    let c1 := SpeedController.decreaseSpeed st.controller
    let g1 := SpeedController.getSpeed c1
    let st1 := rememberSpeed { st with controller := g1.1 } g1.2
    let g2 := SpeedController.getSpeed st1.controller
    ({ st1 with controller := g2.1 }, .speed g2.2)
  | .GET_SETTINGS => (st, .settings st.settings)
  | .UPDATE_SETTINGS payload => (contentUpdateSettings st payload, .success)
  | .SET_PROFILE payload => (contentSetProfile st payload, .success)
  | .TOGGLE_OVERLAY =>
    let st1 := contentToggleOverlay st
    (st1, .visible (match st1.overlay with | some o => o.isVisible | none => false))

/-- Background `initDefaultSettings`: write `DEFAULT_SETTINGS` only when the
store holds no record. -/
def initDefaultSettings (store : Option SpeedyPawsSettings) : Option SpeedyPawsSettings :=
  match store with
  | none => some DEFAULT_SETTINGS
  | some s => some s

/-- Background `getSettings`: the stored record, defaulting when absent. -/
def bgGetSettings (store : Option SpeedyPawsSettings) : SpeedyPawsSettings :=
  store.getD DEFAULT_SETTINGS

/-- Background `updateSettings`: read, spread-merge, write back. -/
def bgUpdateSettings (store : Option SpeedyPawsSettings) (u : SettingsPatch) :
    Option SpeedyPawsSettings :=
  some (mergeSettings (bgGetSettings store) u)

/-- The modelled slice of `PopupController` state: its settings snapshot, its
displayed current speed, and the shared store it would write through
`saveSettings`. -/
structure PopupState where
  settings : SpeedyPawsSettings
  currentSpeed : Rat
  store : Option SpeedyPawsSettings
deriving DecidableEq

/-- `PopupController.setSpeed` (popup.ts): clamp and round, update the
popup's displayed speed, mark the in-memory snapshot's profile as `custom`
(without calling `saveSettings`), and emit a `SET_SPEED` request to the
content coordinator. -/
def popupSetSpeed (ps : PopupState) (speed : Rat) : PopupState × Message :=
  let sp := normalizeSpeed speed
  ({ ps with
      currentSpeed := sp
      settings := { ps.settings with currentProfile := .custom } },
    .SET_SPEED { speed := sp })

/-- Transcription of the specification's wording of the resolution precedence
(spec 4.2, claim C1): level 1 fires when `rememberVideo` is enabled and an
entry for the content id EXISTS (no truthiness proviso), level 2 likewise for
the publisher id, then the active profile, then `defaultSpeed`.  Kept separate
from `resolveSpeed`, which is translated from the source, so the two can be
compared. -/
def specResolveSpeed (s : SpeedyPawsSettings) (vi : VideoInfo) : Rat :=
  match s.rememberVideo, recLookup s.videoSpeeds vi.videoId with
  | true, some v => v
  | _, _ =>
    match s.rememberChannel, recLookup s.channelSpeeds vi.channelId with
    | true, some v => v
    | _, _ =>
      match s.currentProfile with
      | .study => s.profiles.study
      | .chill => s.profiles.chill
      | .review => s.profiles.review
      | .custom => s.defaultSpeed

/-- A record lookup restricted to truthy values: the entry, provided it exists
and is nonzero. -/
def nonzeroEntry (m : List (String × Rat)) (k : String) : Option Rat :=
  match recLookup m k with
  | none => none
  | some v => if v = 0 then none else some v

/-- The amended wording of claim C1: identical precedence, but a memory entry
only fires when it exists WITH A NONZERO VALUE (JavaScript truthiness of
`map[key]`). -/
def specResolveSpeedTruthy (s : SpeedyPawsSettings) (vi : VideoInfo) : Rat :=
  match s.rememberVideo, nonzeroEntry s.videoSpeeds vi.videoId with
  | true, some v => v
  | _, _ =>
    match s.rememberChannel, nonzeroEntry s.channelSpeeds vi.channelId with
    | true, some v => v
    | _, _ =>
      match s.currentProfile with
      | .study => s.profiles.study
      | .chill => s.profiles.chill
      | .review => s.profiles.review
      | .custom => s.defaultSpeed

/-- A content identity used by the concrete scenarios. -/
def sampleVideo : VideoInfo where
  videoId := "v1"
  channelId := "c1"
  channelName := "Chan"
  title := "Title"

/-- A controller holding a media element playing at rate 1. -/
def playingController : ControllerState where
  video := some 1
  currentSpeed := 1
  smartSpeedEnabled := false
  smartSpeedRunning := false

/-- Claim C1 counterexample input: remember-video on, and the video table
holds an entry with value `0` for the current content id. -/
def zeroEntrySettings : SpeedyPawsSettings :=
  { DEFAULT_SETTINGS with
      rememberVideo := true
      rememberChannel := false
      currentProfile := .custom
      defaultSpeed := 1
      videoSpeeds := [("v1", 0)]
      channelSpeeds := [] }

/-- Claim C2 failing input: a page instance with default settings, a playing
media element and content identity `v1` / `c1`. -/
def rawPersistInit : ContentState where
  settings := DEFAULT_SETTINGS
  store := some DEFAULT_SETTINGS
  controller := playingController
  videoInfo := some sampleVideo
  overlay := none

/-- Claim C3 scenario identity: content `v42`, publisher `p7`. -/
def scenarioVideo : VideoInfo where
  videoId := "v42"
  channelId := "p7"
  channelName := "Pub"
  title := "T"

/-- Claim C3 scenario state: both remember flags on (defaults), profile
`custom` (default), content `v42` / publisher `p7`. -/
def scenarioInit : ContentState where
  settings := DEFAULT_SETTINGS
  store := none
  controller := playingController
  videoInfo := some scenarioVideo
  overlay := none

/-- A controller with no locatable media element and cached rate 1. -/
def mediaLessController : ControllerState where
  video := none
  currentSpeed := 1
  smartSpeedEnabled := false
  smartSpeedRunning := false

/-- A second media-less controller, cached rate 1.5, for the C4 witness. -/
def mediaLessController2 : ControllerState where
  video := none
  currentSpeed := 3 / 2
  smartSpeedEnabled := false
  smartSpeedRunning := false

/-- Claim C5 counterexample input: the `review` profile is active when a
`SET_SPEED` request arrives. -/
def reviewProfileInit : ContentState where
  settings := { DEFAULT_SETTINGS with currentProfile := .review }
  store := some { DEFAULT_SETTINGS with currentProfile := .review }
  controller := playingController
  videoInfo := some sampleVideo
  overlay := none

/-- The `UPDATE_SETTINGS` payload of the claim C7 round trip. -/
def showOverlayFalsePatch : SettingsPatch :=
  { showOverlay := some false }

/-- Claim C9 witness payload: a partial update carrying a single map-valued
field, the `videoSpeeds` table. -/
def videoTablePatch : SettingsPatch :=
  { videoSpeeds := some [("b", 2)] }

/-- Claim C9 witness starting state: both memory tables already hold an
entry under the key `a`. -/
def mapHolderInit : ContentState where
  settings :=
    { DEFAULT_SETTINGS with
        videoSpeeds := [("a", 1)]
        channelSpeeds := [("a", 1)] }
  store := none
  controller := playingController
  videoInfo := none
  overlay := none

/-! ## Helper lemmas -/

/-- Assigning `m[k] = v` makes a subsequent lookup of `k` return `v`. -/
theorem recLookup_recInsert_self (m : List (String × Rat)) (k : String) (v : Rat) :
    recLookup (recInsert m k v) k = some v := by
  induction m with
  | nil => simp [recInsert, recLookup]
  | cons hd tl ih =>
    obtain ⟨k', v'⟩ := hd
    by_cases h : k' = k
    · simp [recInsert, recLookup, h]
    · simp [recInsert, recLookup, h, ih]

/-- `rememberSpeed` never touches the `currentProfile` field. -/
theorem rememberSpeed_currentProfile (st : ContentState) (speed : Rat) :
    (rememberSpeed st speed).settings.currentProfile = st.settings.currentProfile := by
  unfold rememberSpeed
  cases hvi : st.videoInfo with
  | none => rfl
  | some vi =>
    cases hrv : st.settings.rememberVideo <;>
    cases hrc : st.settings.rememberChannel <;>
    by_cases hcp : st.settings.currentProfile = SpeedProfile.custom <;>
    simp [hrv, hrc, hcp]

/-- The settings snapshot produced by the content coordinator's
`updateSettings` is exactly the spread merge; the overlay and smart-speed
side effects do not touch it. -/
theorem contentUpdateSettings_settings (st : ContentState) (u : SettingsPatch) :
    (contentUpdateSettings st u).settings = mergeSettings st.settings u := by
  rcases hsm : u.smartSpeedEnabled with _ | bs <;>
  rcases hso : u.showOverlay with _ | bo <;>
  rcases hov : st.overlay with _ | o <;>
  simp [contentUpdateSettings, hsm, hso, hov, SpeedController.setSmartSpeedEnabled] <;>
  (repeat' split) <;> rfl

/-- A truthy restricted lookup implies the raw lookup succeeds with the same
nonzero value. -/
theorem nonzeroEntry_some {m : List (String × Rat)} {k : String} {v : Rat}
    (h : nonzeroEntry m k = some v) : recLookup m k = some v ∧ jsTruthy (recLookup m k) = true := by
  unfold nonzeroEntry at h
  cases hl : recLookup m k with
  | none => rw [hl] at h; simp at h
  | some w =>
    rw [hl] at h
    by_cases hw : w = 0
    · simp [hw] at h
    · simp [hw] at h
      subst h
      exact ⟨rfl, by simp [jsTruthy, hw]⟩

/-- An absent truthy lookup means the raw lookup is `undefined` or `0`. -/
theorem nonzeroEntry_none {m : List (String × Rat)} {k : String}
    (h : nonzeroEntry m k = none) : jsTruthy (recLookup m k) = false := by
  unfold nonzeroEntry at h
  cases hl : recLookup m k with
  | none => simp [jsTruthy]
  | some w =>
    rw [hl] at h
    by_cases hw : w = 0
    · simp [jsTruthy, hw]
    · simp [hw] at h

/-! ## Claim C1 — resolution precedence -/

/-- Claim C1, counterexample.  On a snapshot whose video table holds the
entry `0` for the current content id (`rememberVideo` on), the claim's
precedence as stated — "an entry exists" — resolves to the entry `0`, while
the code's truthiness test `if (videoSpeeds[id])` skips the entry and falls
through to `defaultSpeed = 1`. -/
theorem C1_counterexample :
    specResolveSpeed zeroEntrySettings sampleVideo = 0 ∧
    resolveSpeed zeroEntrySettings sampleVideo = 1 ∧
    specResolveSpeed zeroEntrySettings sampleVideo ≠ resolveSpeed zeroEntrySettings sampleVideo := by
  decide

/-- Claim C1, amended: for every settings snapshot and content identity the
resolved speed follows the four-level precedence, where a memory entry fires
only when it exists with a nonzero value (JavaScript truthiness): the
`videoSpeeds` entry when `rememberVideo` is enabled, else the
`channelSpeeds` entry when `rememberChannel` is enabled, else
`profiles[currentProfile]` when the profile is not `custom`, else
`defaultSpeed`. -/
theorem C1_resolve_precedence (s : SpeedyPawsSettings) (vi : VideoInfo) :
    resolveSpeed s vi = specResolveSpeedTruthy s vi := by
  unfold resolveSpeed specResolveSpeedTruthy nonzeroEntry jsTruthy
  cases hrv : s.rememberVideo <;>
  cases hv : recLookup s.videoSpeeds vi.videoId <;>
  cases hrc : s.rememberChannel <;>
  cases hc : recLookup s.channelSpeeds vi.channelId <;>
  simp [hrv, hv, hrc, hc] <;>
  split_ifs <;>
  simp_all

/-! ## Claim C2 — range and rounding of stored values -/

/-- Claim C2, failing run.  A `SET_SPEED` request with raw payload `7.33`
against default settings and content `v1` / channel `c1` persists the raw
out-of-range value into `videoSpeeds`, `channelSpeeds` and `defaultSpeed`
(the handler passes `speedPayload.speed`, not the clamped value, to
`rememberSpeed`), while the rate actually applied to the media element is
clamped to `5.0`. -/
theorem C2_raw_payload_persisted :
    recLookup (contentHandleMessage rawPersistInit
      (Message.SET_SPEED { speed := 733 / 100 })).1.settings.videoSpeeds "v1" = some (733 / 100) ∧
    recLookup (contentHandleMessage rawPersistInit
      (Message.SET_SPEED { speed := 733 / 100 })).1.settings.channelSpeeds "c1" = some (733 / 100) ∧
    (contentHandleMessage rawPersistInit
      (Message.SET_SPEED { speed := 733 / 100 })).1.settings.defaultSpeed = 733 / 100 ∧
    (contentHandleMessage rawPersistInit
      (Message.SET_SPEED { speed := 733 / 100 })).1.store =
      some (contentHandleMessage rawPersistInit
        (Message.SET_SPEED { speed := 733 / 100 })).1.settings ∧
    MAX_SPEED < 733 / 100 ∧
    (contentHandleMessage rawPersistInit
      (Message.SET_SPEED { speed := 733 / 100 })).1.controller.video = some 5 := by
  decide

/-! ## Claim C3 — the onRateApplied persistence path -/

/-- Claim C3: for every state with a current content identity,
`rememberSpeed speed` writes `speed` into `videoSpeeds` under the content id
when `rememberVideo` is enabled, into `channelSpeeds` under the publisher id
when `rememberChannel` is enabled, into `defaultSpeed` exactly when
`currentProfile` is `custom`, and persists the full settings snapshot. -/
theorem C3_remember_writes (st : ContentState) (vi : VideoInfo) (speed : Rat)
    (h : st.videoInfo = some vi) :
    (st.settings.rememberVideo = true →
      recLookup (rememberSpeed st speed).settings.videoSpeeds vi.videoId = some speed) ∧
    (st.settings.rememberChannel = true →
      recLookup (rememberSpeed st speed).settings.channelSpeeds vi.channelId = some speed) ∧
    (st.settings.currentProfile = SpeedProfile.custom →
      (rememberSpeed st speed).settings.defaultSpeed = speed) ∧
    (st.settings.currentProfile ≠ SpeedProfile.custom →
      (rememberSpeed st speed).settings.defaultSpeed = st.settings.defaultSpeed) ∧
    (rememberSpeed st speed).store = some (rememberSpeed st speed).settings := by
  unfold rememberSpeed
  rw [h]
  cases hrv : st.settings.rememberVideo <;>
  cases hrc : st.settings.rememberChannel <;>
  by_cases hcp : st.settings.currentProfile = SpeedProfile.custom <;>
  simp [hrv, hrc, hcp, recLookup_recInsert_self]

/-- Claim C3, witness: the spec scenario — content `v42`, publisher `p7`,
both remember flags on, `currentProfile = custom`, speed `1.3` — yields
`videoSpeeds.v42 = 1.3`, `channelSpeeds.p7 = 1.3`, `defaultSpeed = 1.3`. -/
theorem C3_remember_writes_witness :
    recLookup (rememberSpeed scenarioInit (13 / 10)).settings.videoSpeeds "v42" = some (13 / 10) ∧
    recLookup (rememberSpeed scenarioInit (13 / 10)).settings.channelSpeeds "p7" = some (13 / 10) ∧
    (rememberSpeed scenarioInit (13 / 10)).settings.defaultSpeed = 13 / 10 ∧
    (rememberSpeed scenarioInit (13 / 10)).store = some (rememberSpeed scenarioInit (13 / 10)).settings := by
  have h := C3_remember_writes scenarioInit scenarioVideo (13 / 10) rfl
  exact ⟨h.1 rfl, h.2.1 rfl, h.2.2.1 rfl, h.2.2.2.2⟩

/-! ## Claim C4 — setRate without a media element -/

/-- Claim C4, counterexample.  With no locatable media element and cached
rate `1`, `setSpeed 2` (whose clamped rounded value is `2`) leaves the cache
at `1`: `getSpeed` afterwards returns `1`, not the claimed clamped value. -/
theorem C4_counterexample :
    normalizeSpeed 2 = 2 ∧
    SpeedController.setSpeed mediaLessController 2 = mediaLessController ∧
    (SpeedController.getSpeed (SpeedController.setSpeed mediaLessController 2)).2 = 1 ∧
    (1 : Rat) ≠ 2 := by
  decide

/-- Claim C4, amended: when no media element can be located, `setSpeed` is a
complete no-op — it changes neither the element nor the current-rate cache —
and `getSpeed` afterwards returns the previous cached value. -/
theorem C4_noop_without_media (c : ControllerState) (speed : Rat) (h : c.video = none) :
    SpeedController.setSpeed c speed = c ∧
    SpeedController.getSpeed (SpeedController.setSpeed c speed) = (c, c.currentSpeed) := by
  have h1 : SpeedController.setSpeed c speed = c := by
    unfold SpeedController.setSpeed SpeedController.findVideo
    simp [h]
  refine ⟨h1, ?_⟩
  rw [h1]
  unfold SpeedController.getSpeed
  simp [h]

/-- Claim C4, witness for the amended statement at a concrete media-less
controller with cached rate `1.5`. -/
theorem C4_noop_without_media_witness :
    SpeedController.setSpeed mediaLessController2 4 = mediaLessController2 ∧
    SpeedController.getSpeed (SpeedController.setSpeed mediaLessController2 4) =
      (mediaLessController2, 3 / 2) := by
  have h := C4_noop_without_media mediaLessController2 4 rfl
  exact ⟨h.1, h.2⟩

/-! ## Claim C5 — direct adjustment and currentProfile -/

/-- Claim C5, counterexample.  With the `review` profile active, a
`SET_SPEED 1.3` request is handled and the snapshot is persisted, yet the
persisted record still has `currentProfile = review`, not `custom`. -/
theorem C5_counterexample :
    (contentHandleMessage reviewProfileInit
      (Message.SET_SPEED { speed := 13 / 10 })).1.settings.currentProfile = SpeedProfile.review ∧
    (contentHandleMessage reviewProfileInit
      (Message.SET_SPEED { speed := 13 / 10 })).1.store =
      some (contentHandleMessage reviewProfileInit
        (Message.SET_SPEED { speed := 13 / 10 })).1.settings ∧
    SpeedProfile.review ≠ SpeedProfile.custom := by
  decide

/-- Claim C5, amended: the content coordinator's `SET_SPEED`,
`INCREASE_SPEED` and `DECREASE_SPEED` handlers never change
`currentProfile` — the record (persisted by `rememberSpeed`) keeps its prior
value — while the popup's `setSpeed` sets `currentProfile = custom` only on
its own in-memory snapshot, without writing the store. -/
theorem C5_profile_unchanged (st : ContentState) (pl : SpeedChangePayload)
    (ps : PopupState) (x : Rat) :
    (contentHandleMessage st (Message.SET_SPEED pl)).1.settings.currentProfile =
      st.settings.currentProfile ∧
    (contentHandleMessage st Message.INCREASE_SPEED).1.settings.currentProfile =
      st.settings.currentProfile ∧
    (contentHandleMessage st Message.DECREASE_SPEED).1.settings.currentProfile =
      st.settings.currentProfile ∧
    (popupSetSpeed ps x).1.settings.currentProfile = SpeedProfile.custom ∧
    (popupSetSpeed ps x).1.store = ps.store := by
  refine ⟨?_, ?_, ?_, rfl, rfl⟩
  · exact rememberSpeed_currentProfile _ pl.speed
  · exact rememberSpeed_currentProfile _ _
  · exact rememberSpeed_currentProfile _ _

/-! ## Claim C6 — resolution does not persist -/

/-- Claim C6: applying the resolved speed (`applyRememberedSpeed`, run on
initialization and navigation) leaves the `videoSpeeds` and `channelSpeeds`
memory tables and `defaultSpeed` unchanged, and never writes the store: it
only drives the playback controller. -/
theorem C6_resolution_frame (st : ContentState) :
    (applyRememberedSpeed st).settings.videoSpeeds = st.settings.videoSpeeds ∧
    (applyRememberedSpeed st).settings.channelSpeeds = st.settings.channelSpeeds ∧
    (applyRememberedSpeed st).settings.defaultSpeed = st.settings.defaultSpeed ∧
    (applyRememberedSpeed st).store = st.store := by
  unfold applyRememberedSpeed
  cases st.videoInfo <;> exact ⟨rfl, rfl, rfl, rfl⟩

/-! ## Claim C7 — UPDATE_SETTINGS / GET_SETTINGS round trip -/

/-- Claim C7: from any starting state, handling
`UPDATE_SETTINGS (showOverlay := false)` and then `GET_SETTINGS` returns the
original settings record with `showOverlay = false` and every other field
unchanged. -/
theorem C7_update_roundtrip (st : ContentState) :
    (contentHandleMessage
      (contentHandleMessage st (Message.UPDATE_SETTINGS showOverlayFalsePatch)).1
      Message.GET_SETTINGS).2 =
      Response.settings { st.settings with showOverlay := false } := by
  show Response.settings ((contentUpdateSettings st showOverlayFalsePatch).settings) = _
  rw [contentUpdateSettings_settings]
  rfl

/-! ## Claim C8 — background default initialization -/

/-- Claim C8: `initDefaultSettings` writes the default record only when the
store holds none, and leaves any existing record untouched. -/
theorem C8_init_defaults_only_when_absent :
    initDefaultSettings none = some DEFAULT_SETTINGS ∧
    ∀ s : SpeedyPawsSettings, initDefaultSettings (some s) = some s :=
  ⟨rfl, fun _ => rfl⟩

/-! ## Claim C9 — the merge is a shallow wholesale override -/

/-- Claim C9: for every partial update, whenever its payload includes a
map-valued field (`profiles`, `channelSpeeds`, `videoSpeeds`,
`overlayPosition`) — each field independently, regardless of which others
are present — both the content coordinator's merge and the background
coordinator's merge store exactly the provided value for that field,
replacing the previous map wholesale. -/
theorem C9_wholesale_map_override (st : ContentState) (store : Option SpeedyPawsSettings)
    (u : SettingsPatch) :
    (∀ pc : ProfileConfig, u.profiles = some pc →
      (contentUpdateSettings st u).settings.profiles = pc ∧
      (mergeSettings (bgGetSettings store) u).profiles = pc) ∧
    (∀ mc : List (String × Rat), u.channelSpeeds = some mc →
      (contentUpdateSettings st u).settings.channelSpeeds = mc ∧
      (mergeSettings (bgGetSettings store) u).channelSpeeds = mc) ∧
    (∀ mv : List (String × Rat), u.videoSpeeds = some mv →
      (contentUpdateSettings st u).settings.videoSpeeds = mv ∧
      (mergeSettings (bgGetSettings store) u).videoSpeeds = mv) ∧
    (∀ pos : OverlayPosition, u.overlayPosition = some pos →
      (contentUpdateSettings st u).settings.overlayPosition = pos ∧
      (mergeSettings (bgGetSettings store) u).overlayPosition = pos) ∧
    bgUpdateSettings store u = some (mergeSettings (bgGetSettings store) u) := by
  refine ⟨fun pc hp => ?_, fun mc hc => ?_, fun mv hv => ?_, fun pos ho => ?_, rfl⟩ <;>
  constructor <;>
  simp [contentUpdateSettings_settings, mergeSettings, *]

/-- Claim C9, witness: a payload carrying only the `videoSpeeds` field, over
a state whose table holds an entry under `a`, stores exactly `[(b, 2)]` in
both coordinators — the prior entry is gone, not merged in. -/
theorem C9_wholesale_map_override_witness :
    (contentUpdateSettings mapHolderInit videoTablePatch).settings.videoSpeeds = [("b", 2)] ∧
    (mergeSettings (bgGetSettings none) videoTablePatch).videoSpeeds = [("b", 2)] := by
  have h := C9_wholesale_map_override mapHolderInit none videoTablePatch
  exact ⟨(h.2.2.1 [("b", 2)] rfl).1, (h.2.2.1 [("b", 2)] rfl).2⟩

/-! ## Claim C10 — SET_PROFILE with custom -/

/-- Claim C10: `setProfile custom` records `currentProfile = custom` and
persists the snapshot but leaves the playback controller (and hence the
live rate) and the memory tables untouched; each non-custom profile payload
instead routes its configured rate through the playback driver. -/
theorem C10_set_profile_custom (st : ContentState) :
    (contentSetProfile st SpeedProfile.custom).settings =
      { st.settings with currentProfile := SpeedProfile.custom } ∧
    (contentSetProfile st SpeedProfile.custom).store =
      some { st.settings with currentProfile := SpeedProfile.custom } ∧
    (contentSetProfile st SpeedProfile.custom).controller = st.controller ∧
    (contentSetProfile st SpeedProfile.study).controller =
      SpeedController.setSpeed st.controller st.settings.profiles.study ∧
    (contentSetProfile st SpeedProfile.chill).controller =
      SpeedController.setSpeed st.controller st.settings.profiles.chill ∧
    (contentSetProfile st SpeedProfile.review).controller =
      SpeedController.setSpeed st.controller st.settings.profiles.review :=
  ⟨rfl, rfl, rfl, rfl, rfl, rfl⟩

end SpeedyPaws
